import Mathlib

/-
Verification of the curve computation and grading engine of the
score-post-LLM pipeline.

The embedding covers:
  - the numeric helpers of the synthetic-data / pipeline module
    (JS Math.round half-up rounding, the 0..1 clamp),
  - computeStdDevThresholds and computeCurve (curve computation,
    standard-deviation method),
  - getGrade and applyCurve (grade assignment),
  - createScorePool (pool construction),
  - extractBaseProblemId and checkCompatibility (compatibility check
    of the schemas module, including the allowLanguageDifference option),
  - the ability-score aggregation of generateReportJSON together with
    the dimension-dependency configuration it generates.

Numbers are modelled as exact rationals (IEEE doubles are treated as
exact arithmetic).  The square root used by the standard-deviation
method (JS Math.sqrt) is irrational in general, so every definition
that needs it is parametrised by a function `sqrt : Q -> Q`; the
theorems assume no more about it than each claim needs (typically that
it maps nonnegative inputs to nonnegative outputs).  Calls to
`new Date().toISOString()` and `randomUUID()` are modelled by explicit
string parameters, and the random scores drawn by the data generator
are modelled by explicit score-assignment functions.
-/

set_option autoImplicit false

namespace ScorePipeline

/-- JavaScript Math.round: rounds half away from zero for positive inputs;
for x equal to or above 0 it is the floor of x + 1/2, which is the only case
reached here (all rounded values are clamped into the interval 0..1 first,
or are means of scores in 0..1). -/
def jsRound (x : ℚ) : ℤ := ⌊x + 1/2⌋

/-- Rounding to three decimals: Math.round(x * 1000) / 1000, as used by
computeStdDevThresholds. -/
def round3 (x : ℚ) : ℚ := (jsRound (x * 1000) : ℚ) / 1000

/-- Rounding to two decimals: Math.round(x * 100) / 100, as used by the
report generator for ability and total scores. -/
def round2 (x : ℚ) : ℚ := (jsRound (x * 100) : ℚ) / 100

/-- The clamp helper of computeStdDevThresholds:
clamp = (v) => Math.max(0, Math.min(1, v)). -/
def clamp01 (v : ℚ) : ℚ := max 0 (min 1 v)

/-- Letter grades produced by grading (the schema also has an "X" marker for
uncurved reports, which getGrade never returns). -/
inductive Grade where
  | A
  | B
  | C
  | D
deriving DecidableEq

/-- The three derived total scores of a participant. -/
structure Totals where
  total_problem_score : ℚ
  total_ability_score : ℚ
  final_total_score : ℚ
deriving DecidableEq

/-- One aggregated per-dimension score. -/
structure AbilityScore where
  dimension_id : String
  score : ℚ
deriving DecidableEq

/-- One per-problem score with its per-dimension breakdown. -/
structure ProblemScore where
  problem_id : String
  objective_score : ℚ
  dimension_scores : List AbilityScore
deriving DecidableEq

/-- JSONScores: one participant's extracted scores. -/
structure JSONScores where
  source_report_id : String
  event_id : String
  participant_id : String
  totals : Totals
  ability_scores : List AbilityScore
  problem_scores : List ProblemScore
deriving DecidableEq

/-- ScorePool: the input of curve computation. -/
structure ScorePool where
  event_id : String
  prompt_version_hash : String
  problem_ids : List String
  dimension_ids : List String
  scores : List JSONScores
deriving DecidableEq

/-- The method descriptor stored in a curve. -/
inductive CurveMethod where
  | standard_deviation (sigma_boundaries : List ℚ)
  | percentile (percentiles : List ℚ)
  | absolute (thresholds : List ℚ)
deriving DecidableEq

/-- A threshold definition: thresholds in descending order
(A-threshold, B-threshold, C-threshold) plus the grade labels. -/
structure ThresholdDef where
  thresholds : List ℚ
  grades : List Grade
deriving DecidableEq

/-- Per-dimension curve entry. -/
structure AbilityCurve where
  dimension_id : String
  thresholds : List ℚ
  grades : List Grade
deriving DecidableEq

/-- Per-problem curve entry. -/
structure ProblemCurve where
  problem_id : String
  thresholds : List ℚ
  grades : List Grade
deriving DecidableEq

/-- Threshold definitions for the three total categories. -/
structure CurveTotals where
  total_problem : ThresholdDef
  total_ability : ThresholdDef
  final_total : ThresholdDef
deriving DecidableEq

/-- A computed curve. -/
structure Curve where
  curve_id : String
  source_event_id : String
  prompt_version_hash : String
  problem_ids : List String
  dimension_ids : List String
  method : CurveMethod
  sample_size : ℕ
  computed_at : String
  totals : CurveTotals
  ability_curves : List AbilityCurve
  problem_curves : List ProblemCurve
deriving DecidableEq

/-- Grades of the three totals. -/
structure TotalGrades where
  total_problem_grade : Grade
  total_ability_grade : Grade
  final_total_grade : Grade
deriving DecidableEq

/-- One graded dimension. -/
structure AbilityGrade where
  dimension_id : String
  grade : Grade
deriving DecidableEq

/-- One graded problem. -/
structure ProblemGrade where
  problem_id : String
  grade : Grade
deriving DecidableEq

/-- The result of applying a curve to one participant's scores. -/
structure CurvedLetterGrades where
  source_scores_id : String
  curve_id : String
  computed_at : String
  total_grades : TotalGrades
  ability_grades : List AbilityGrade
  problem_grades : List ProblemGrade
deriving DecidableEq

/-- The six problem ids of the synthetic event (6-digit format, last digit
encodes language). -/
def PROBLEM_IDS : List String :=
  ["003400", "003401", "005000", "005001", "010000", "010001"]

/-- The five ability dimensions. -/
def DIMENSION_IDS : List String :=
  ["discovery", "representation", "iterative-refinement", "exploratory",
   "self-verification"]

/-- The synthetic event id. -/
def EVENT_ID : String := "event_2024_01"

/-- The prompt version hash stamped on every synthetic report and pool. -/
def PROMPT_VERSION_HASH : String := "abc1234def5678"

/-- computeStdDevThresholds: for an empty value list the documented fallback
triple, otherwise mean and population standard deviation (denominator N) of
the values, each threshold clamped into 0..1 and rounded to three decimals.
The reduce-based mean and variance of the source are embedded as left folds;
Math.sqrt is the parameter sqrt. -/
def computeStdDevThresholds (sqrt : ℚ → ℚ) (values : List ℚ) : List ℚ :=
  if values.length = 0 then [0.8, 0.5, 0.2]
  else
    let mean := values.foldl (· + ·) 0 / (values.length : ℚ)
    let variance :=
      values.foldl (fun sum v => sum + (v - mean) ^ 2) 0 / (values.length : ℚ)
    let stdDev := sqrt variance
    [round3 (clamp01 (mean + stdDev)),
     round3 (clamp01 mean),
     round3 (clamp01 (mean - stdDev))]

/-- Statement of the specification's standard-deviation rule, written from
the spec's words: mean mu and population standard deviation sigma (N
denominator) of the gathered values; A = clamp(mu + sigma, 0, 1),
B = clamp(mu, 0, 1), C = clamp(mu - sigma, 0, 1), each rounded to three
decimals.  Used as the comparison point for the refinement claim about
computeStdDevThresholds. -/
def specStdDevThresholds (sqrt : ℚ → ℚ) (values : List ℚ) : List ℚ :=
  let n : ℚ := (values.length : ℚ)
  let mu := values.sum / n
  let sigma := sqrt ((values.map (fun v => (v - mu) ^ 2)).sum / n)
  [round3 (clamp01 (mu + sigma)),
   round3 (clamp01 mu),
   round3 (clamp01 (mu - sigma))]

/-- JavaScript comparison score >= thresholds[i]: comparison with a missing
array element (undefined) is false. -/
def jsGe (score : ℚ) (t : Option ℚ) : Bool :=
  match t with
  | some t => decide (t ≤ score)
  | none => false

/-- getGrade: first threshold reached, inclusive at the lower bound of each
tier; below every threshold the grade is D. -/
def getGrade (score : ℚ) (thresholds : List ℚ) : Grade :=
  if jsGe score thresholds[0]? then .A
  else if jsGe score thresholds[1]? then .B
  else if jsGe score thresholds[2]? then .C
  else .D

/-- computeCurve: standard-deviation curve over a pool.  curve_id
(randomUUID) and computed_at (now) are modelled as explicit parameters; the
per-dimension and per-problem categories iterate over the module constants
DIMENSION_IDS and PROBLEM_IDS, gathering each participant's matching entries
with a filter, exactly as the source does. -/
def computeCurve (sqrt : ℚ → ℚ) (curveId computedAt : String)
    (pool : ScorePool) : Curve :=
  let scores := pool.scores
  let totalProblemScores := scores.map (fun s => s.totals.total_problem_score)
  let totalAbilityScores := scores.map (fun s => s.totals.total_ability_score)
  let finalTotalScores := scores.map (fun s => s.totals.final_total_score)
  let abilityThresholds := DIMENSION_IDS.map (fun did =>
    let dimScores := scores.flatMap (fun s =>
      (s.ability_scores.filter (fun a => a.dimension_id == did)).map
        (fun a => a.score))
    { dimension_id := did,
      thresholds := computeStdDevThresholds sqrt dimScores,
      grades := [.A, .B, .C, .D] : AbilityCurve })
  let problemThresholds := PROBLEM_IDS.map (fun pid =>
    let probScores := scores.flatMap (fun s =>
      (s.problem_scores.filter (fun p => p.problem_id == pid)).map
        (fun p => p.objective_score))
    { problem_id := pid,
      thresholds := computeStdDevThresholds sqrt probScores,
      grades := [.A, .B, .C, .D] : ProblemCurve })
  { curve_id := curveId,
    source_event_id := pool.event_id,
    prompt_version_hash := pool.prompt_version_hash,
    problem_ids := pool.problem_ids,
    dimension_ids := pool.dimension_ids,
    method := .standard_deviation [1, 0, -1],
    sample_size := scores.length,
    computed_at := computedAt,
    totals :=
      { total_problem :=
          { thresholds := computeStdDevThresholds sqrt totalProblemScores,
            grades := [.A, .B, .C, .D] },
        total_ability :=
          { thresholds := computeStdDevThresholds sqrt totalAbilityScores,
            grades := [.A, .B, .C, .D] },
        final_total :=
          { thresholds := computeStdDevThresholds sqrt finalTotalScores,
            grades := [.A, .B, .C, .D] } },
    ability_curves := abilityThresholds,
    problem_curves := problemThresholds }

/-- applyCurve: grades the three totals and maps every ability and problem
score through getGrade.  The curve entry for a dimension or problem is looked
up with find; when none matches, the source falls back to the default
thresholds 0.8 / 0.6 / 0.4 (curveData?.thresholds with a nullish default).
The computed_at timestamp (now) is an explicit parameter. -/
def applyCurve (computedAt : String) (scores : JSONScores) (curve : Curve) :
    CurvedLetterGrades :=
  let totalProblemGrade :=
    getGrade scores.totals.total_problem_score
      curve.totals.total_problem.thresholds
  let totalAbilityGrade :=
    getGrade scores.totals.total_ability_score
      curve.totals.total_ability.thresholds
  let finalTotalGrade :=
    getGrade scores.totals.final_total_score
      curve.totals.final_total.thresholds
  let abilityGrades := scores.ability_scores.map (fun a =>
    let curveData :=
      curve.ability_curves.find? (fun c => c.dimension_id == a.dimension_id)
    { dimension_id := a.dimension_id,
      grade := getGrade a.score
        ((curveData.map (fun c => c.thresholds)).getD [0.8, 0.6, 0.4])
      : AbilityGrade })
  let problemGrades := scores.problem_scores.map (fun p =>
    let curveData :=
      curve.problem_curves.find? (fun c => c.problem_id == p.problem_id)
    { problem_id := p.problem_id,
      grade := getGrade p.objective_score
        ((curveData.map (fun c => c.thresholds)).getD [0.8, 0.6, 0.4])
      : ProblemGrade })
  { source_scores_id := scores.source_report_id,
    curve_id := curve.curve_id,
    computed_at := computedAt,
    total_grades :=
      { total_problem_grade := totalProblemGrade,
        total_ability_grade := totalAbilityGrade,
        final_total_grade := finalTotalGrade },
    ability_grades := abilityGrades,
    problem_grades := problemGrades }

/-- createScorePool: throws on an empty list, otherwise stamps the pool with
the first score's event id and the module constants for hash, problem ids
and dimension ids.  The thrown error is modelled as the error branch of
Except. -/
def createScorePool (scores : List JSONScores) : Except String ScorePool :=
  match scores with
  | [] => .error "Cannot create score pool from empty scores array"
  | s :: _ =>
    .ok { event_id := s.event_id,
          prompt_version_hash := PROMPT_VERSION_HASH,
          problem_ids := PROBLEM_IDS,
          dimension_ids := DIMENSION_IDS,
          scores := scores }

/-- Construction of a JavaScript Set from a list: deduplication keeping the
first occurrence, iteration in insertion order. -/
def jsSetList (l : List String) : List String :=
  l.foldl (fun acc x => if x ∈ acc then acc else acc ++ [x]) []

/-- extractBaseProblemId: removes the last digit (the language indicator)
of a problem id, problemId.slice(0, -1). -/
def extractBaseProblemId (problemId : String) : String :=
  problemId.dropRight 1

/-- The structured description of provenance differences carried by the
requires_override variant of the compatibility result. -/
structure OverrideDifferences where
  prompt_version_mismatch : Bool
  problem_id_differences : Option (List String)
  dimension_id_differences : Option (List String)
deriving DecidableEq

/-- The closed set of compatibility outcomes. -/
inductive CompatibilityResult where
  | compatible
  | incompatible (reasons : List String)
  | requires_override (warnings : List String)
      (differences : OverrideDifferences)
deriving DecidableEq

/-- The problem-id half of checkCompatibility: one reason pushed for every
curve problem with no match among the score problems, then one for every
score problem with no match among the curve problems.  With the
allowLanguageDifference option, a match means equal base ids (language digit
stripped); without it, set membership of the exact id. -/
def problemIdDifferences (curve : Curve) (scores : JSONScores)
    (allowLanguageDifference : Bool) : List String :=
  let scoreProblemIds :=
    jsSetList (scores.problem_scores.map (fun p => p.problem_id))
  let curveProblemIds := jsSetList curve.problem_ids
  let fromCurve := curveProblemIds.foldl (fun acc pid =>
    let hasMatch :=
      if allowLanguageDifference then
        scoreProblemIds.any (fun spid =>
          extractBaseProblemId spid == extractBaseProblemId pid)
      else scoreProblemIds.contains pid
    if hasMatch then acc
    else acc ++ ["Curve has " ++ pid ++ " but scores missing it"]) []
  let fromScores := scoreProblemIds.foldl (fun acc pid =>
    let hasMatch :=
      if allowLanguageDifference then
        curveProblemIds.any (fun cpid =>
          extractBaseProblemId cpid == extractBaseProblemId pid)
      else curveProblemIds.contains pid
    if hasMatch then acc
    else acc ++ ["Scores has " ++ pid ++ " but curve missing it"]) []
  fromCurve ++ fromScores

/-- The dimension-id half of checkCompatibility: dimensions have no language
variant, so both directions always compare exact ids. -/
def dimensionIdDifferences (curve : Curve) (scores : JSONScores) :
    List String :=
  let scoreDimensionIds :=
    jsSetList (scores.ability_scores.map (fun a => a.dimension_id))
  let curveDimensionIds := jsSetList curve.dimension_ids
  let fromCurve := curveDimensionIds.foldl (fun acc did =>
    if scoreDimensionIds.contains did then acc
    else acc ++ ["Curve has " ++ did ++ " but scores missing it"]) []
  let fromScores := scoreDimensionIds.foldl (fun acc did =>
    if curveDimensionIds.contains did then acc
    else acc ++ ["Scores has " ++ did ++ " but curve missing it"]) []
  fromCurve ++ fromScores

/-- checkCompatibility: collects the problem-id differences and then the
dimension-id differences into the reasons list; any reason makes the result
incompatible, otherwise the result is compatible.  The source notes that a
prompt version comparison would need the original report and performs none,
so no path produces the requires_override variant. -/
def checkCompatibility (curve : Curve) (scores : JSONScores)
    (allowLanguageDifference : Bool) : CompatibilityResult :=
  let reasons := problemIdDifferences curve scores allowLanguageDifference ++
    dimensionIdDifferences curve scores
  if reasons.length > 0 then .incompatible reasons else .compatible

/-- The dimension-problem dependency configuration emitted by
generateDimensionDependencies, as pairs of a dimension id and its
contributing problem ids (version and timestamp metadata omitted). -/
def generateDimensionDependencies : List (String × List String) :=
  [("discovery", ["003400", "003401", "005000", "005001"]),
   ("representation", ["003400", "003401", "010000", "010001"]),
   ("iterative-refinement", ["005000", "005001", "010000", "010001"]),
   ("exploratory",
    ["003400", "003401", "005000", "005001", "010000", "010001"]),
   ("self-verification", ["003400", "003401", "005000", "005001"])]

/-- The ability-score aggregation of generateReportJSON for one dimension.
The generator builds one problem per entry of PROBLEM_IDS, each carrying a
dimension score for every entry of DIMENSION_IDS (the random draws are the
parameter dimScore), and then averages the dimension's score across all the
problems, problems.map(p => p.dimension_scores(did)), rounding to two
decimals.  No dimension-dependency restriction is applied. -/
def generateReportAbilityScore (dimScore : String → String → ℚ)
    (did : String) : ℚ :=
  let scores := PROBLEM_IDS.map (fun pid => dimScore pid did)
  round2 (scores.foldl (· + ·) 0 / (scores.length : ℚ))

/-- Statement of the specification's aggregation rule, written from the
spec's words: the ability score of a dimension is the arithmetic mean of
that dimension's per-problem scores taken only over the problems whose
dependency entry lists that dimension.  Used as the comparison point for the
claim about generateReportAbilityScore. -/
def specAbilityScore (deps : List (String × List String))
    (dimScore : String → String → ℚ) (did : String) : ℚ :=
  let contributing :=
    ((deps.find? (fun d => d.1 == did)).map (fun d => d.2)).getD []
  let scores := contributing.map (fun pid => dimScore pid did)
  scores.sum / (scores.length : ℚ)

/-- A threshold definition used by the concrete examples. -/
def tdExample : ThresholdDef := ⟨[4/5, 3/5, 2/5], [.A, .B, .C, .D]⟩

/-- Concrete participant scores over problem 003400 and dimension
discovery. -/
def scoresOne : JSONScores :=
  { source_report_id := "r1",
    event_id := EVENT_ID,
    participant_id := "participant_001",
    totals := ⟨3/4, 4/5, 7/9⟩,
    ability_scores := [⟨"discovery", 7/10⟩],
    problem_scores := [⟨"003400", 1/2, [⟨"discovery", 7/10⟩]⟩] }

/-- Concrete participant scores over a different problem set (005000). -/
def scoresOther : JSONScores :=
  { source_report_id := "r2",
    event_id := EVENT_ID,
    participant_id := "participant_002",
    totals := ⟨1/2, 1/2, 1/2⟩,
    ability_scores := [⟨"discovery", 2/5⟩],
    problem_scores := [⟨"005000", 3/5, [⟨"discovery", 2/5⟩]⟩] }

/-- A curve whose problem and dimension sets match scoresOne but whose
prompt version hash is not the hash the synthetic reports were generated
with. -/
def curveOne : Curve :=
  { curve_id := "curve-1",
    source_event_id := EVENT_ID,
    prompt_version_hash := "ffff999",
    problem_ids := ["003400"],
    dimension_ids := ["discovery"],
    method := .standard_deviation [1, 0, -1],
    sample_size := 2,
    computed_at := "2024-01-01T00:00:00Z",
    totals := ⟨tdExample, tdExample, tdExample⟩,
    ability_curves := [⟨"discovery", [4/5, 3/5, 2/5], [.A, .B, .C, .D]⟩],
    problem_curves := [⟨"003400", [9/10, 7/10, 1/2], [.A, .B, .C, .D]⟩] }

/-- Scores holding a dimension and a problem for which curveNoEntries has
no threshold category. -/
def scoresNoMatch : JSONScores :=
  { source_report_id := "r3",
    event_id := EVENT_ID,
    participant_id := "participant_003",
    totals := ⟨1/2, 1/2, 1/2⟩,
    ability_scores := [⟨"discovery", 7/10⟩],
    problem_scores := [⟨"999999", 1/2, []⟩] }

/-- A curve with no per-dimension and no per-problem entries at all. -/
def curveNoEntries : Curve :=
  { curve_id := "curve-2",
    source_event_id := EVENT_ID,
    prompt_version_hash := PROMPT_VERSION_HASH,
    problem_ids := [],
    dimension_ids := [],
    method := .standard_deviation [1, 0, -1],
    sample_size := 2,
    computed_at := "2024-01-01T00:00:00Z",
    totals := ⟨tdExample, tdExample, tdExample⟩,
    ability_curves := [],
    problem_curves := [] }

/-- A curve over problems 100000 and 100010 (and dimension discovery). -/
def curveTwoProblems : Curve :=
  { curve_id := "curve-3",
    source_event_id := EVENT_ID,
    prompt_version_hash := PROMPT_VERSION_HASH,
    problem_ids := ["100000", "100010"],
    dimension_ids := ["discovery"],
    method := .standard_deviation [1, 0, -1],
    sample_size := 2,
    computed_at := "2024-01-01T00:00:00Z",
    totals := ⟨tdExample, tdExample, tdExample⟩,
    ability_curves := [⟨"discovery", [4/5, 3/5, 2/5], [.A, .B, .C, .D]⟩],
    problem_curves :=
      [⟨"100000", [4/5, 3/5, 2/5], [.A, .B, .C, .D]⟩,
       ⟨"100010", [4/5, 3/5, 2/5], [.A, .B, .C, .D]⟩] }

/-- Scores over problems 100000 and 100020: they share 100000 with
curveTwoProblems, miss its 100010 and add 100020. -/
def scoresTwoProblems : JSONScores :=
  { source_report_id := "r4",
    event_id := EVENT_ID,
    participant_id := "participant_004",
    totals := ⟨1/2, 1/2, 1/2⟩,
    ability_scores := [⟨"discovery", 1/2⟩],
    problem_scores :=
      [⟨"100000", 1/2, [⟨"discovery", 1/2⟩]⟩,
       ⟨"100020", 1/2, [⟨"discovery", 1/2⟩]⟩] }

/-- A curve over the English variant 003400 of the meeting-verify
problem. -/
def curveLangEn : Curve :=
  { curve_id := "curve-4",
    source_event_id := EVENT_ID,
    prompt_version_hash := PROMPT_VERSION_HASH,
    problem_ids := ["003400"],
    dimension_ids := ["discovery"],
    method := .standard_deviation [1, 0, -1],
    sample_size := 2,
    computed_at := "2024-01-01T00:00:00Z",
    totals := ⟨tdExample, tdExample, tdExample⟩,
    ability_curves := [⟨"discovery", [4/5, 3/5, 2/5], [.A, .B, .C, .D]⟩],
    problem_curves := [⟨"003400", [4/5, 3/5, 2/5], [.A, .B, .C, .D]⟩] }

/-- Scores over the Chinese variant 003401 of the same problem: the id
differs from the curve's only in the trailing language digit. -/
def scoresLangZh : JSONScores :=
  { source_report_id := "r5",
    event_id := EVENT_ID,
    participant_id := "participant_005",
    totals := ⟨1/2, 1/2, 1/2⟩,
    ability_scores := [⟨"discovery", 1/2⟩],
    problem_scores := [⟨"003401", 1/2, [⟨"discovery", 1/2⟩]⟩] }

/-- A one-participant pool, used to instantiate pool-quantified theorems. -/
def poolOne : ScorePool :=
  { event_id := EVENT_ID,
    prompt_version_hash := PROMPT_VERSION_HASH,
    problem_ids := PROBLEM_IDS,
    dimension_ids := DIMENSION_IDS,
    scores := [scoresOne] }

/-- A concrete dimension-score assignment: discovery is 0.85 on the four
problems the dependency configuration lists as contributing to it and 0 on
the two ling-bing problems (which it does not list); every other dimension
scores 0.5 everywhere. -/
def dimScoreSkewed : String → String → ℚ := fun pid did =>
  if did == "discovery" then
    if pid == "010000" || pid == "010001" then 0 else 17/20
  else 1/2

/-- A left fold of addition over rationals is the initial value plus the
list sum (the reduce-based mean of the source in sum form). -/
theorem foldl_add_eq_sum (l : List ℚ) (init : ℚ) :
    l.foldl (· + ·) init = init + l.sum := by
  induction l generalizing init with
  | nil => simp
  | cons x xs ih => simp [ih, add_assoc]

/-- A left fold accumulating f over a list is the initial value plus the sum
of the mapped list (the reduce-based variance accumulation in sum form). -/
theorem foldl_add_map_eq_sum (f : ℚ → ℚ) (l : List ℚ) (init : ℚ) :
    l.foldl (fun sum v => sum + f v) init = init + (l.map f).sum := by
  induction l generalizing init with
  | nil => simp
  | cons x xs ih => simp [ih, add_assoc]

/-- Evaluation form of getGrade on a three-element threshold list, as a
chain of propositional conditionals. -/
theorem getGrade_eq_ite (score tA tB tC : ℚ) :
    getGrade score [tA, tB, tC] =
      (if tA ≤ score then Grade.A else if tB ≤ score then Grade.B
       else if tC ≤ score then Grade.C else Grade.D) := by
  have e0 : ([tA, tB, tC] : List ℚ)[0]? = some tA := rfl
  have e1 : ([tA, tB, tC] : List ℚ)[1]? = some tB := rfl
  have e2 : ([tA, tB, tC] : List ℚ)[2]? = some tC := rfl
  simp only [getGrade, e0, e1, e2, jsGe, decide_eq_true_eq]

/-- C1: for every non-empty list of gathered values, computeStdDevThresholds
produces exactly the specification's triple: A = clamp(mu + sigma, 0, 1),
B = clamp(mu, 0, 1), C = clamp(mu - sigma, 0, 1), with mu the arithmetic
mean, sigma the population standard deviation (denominator N, not N - 1),
and every threshold rounded to three decimals. -/
theorem computeStdDevThresholds_eq_spec (sqrt : ℚ → ℚ) (values : List ℚ)
    (h : values ≠ []) :
    computeStdDevThresholds sqrt values = specStdDevThresholds sqrt values := by
  have hlen : ¬values.length = 0 := by simpa using h
  simp only [computeStdDevThresholds, specStdDevThresholds, if_neg hlen,
    foldl_add_eq_sum, foldl_add_map_eq_sum, zero_add]

/-- Witness for C1 at the concrete value list containing 1/2 and 1. -/
theorem computeStdDevThresholds_eq_spec_witness :
    computeStdDevThresholds (fun _ => 0) [1/2, 1] =
      specStdDevThresholds (fun _ => 0) [1/2, 1] :=
  computeStdDevThresholds_eq_spec (fun _ => 0) [1/2, 1]
    (List.cons_ne_nil _ _)

/-- C2: grade assignment is total and exhaustive with inclusive lower
bounds: for every score in the closed interval 0..1 and every threshold
triple, the produced grade is A exactly when the score reaches the
A-threshold, B exactly when it misses A but reaches the B-threshold, C
exactly when it misses A and B but reaches the C-threshold, and D exactly
when it is below all three; the four conditions are mutually exclusive and
cover every case, so exactly one letter is produced. -/
theorem getGrade_total_exhaustive (score tA tB tC : ℚ)
    (h0 : 0 ≤ score) (h1 : score ≤ 1) :
    (getGrade score [tA, tB, tC] = .A ↔ tA ≤ score) ∧
    (getGrade score [tA, tB, tC] = .B ↔ score < tA ∧ tB ≤ score) ∧
    (getGrade score [tA, tB, tC] = .C ↔
      score < tA ∧ score < tB ∧ tC ≤ score) ∧
    (getGrade score [tA, tB, tC] = .D ↔
      score < tA ∧ score < tB ∧ score < tC) := by
  rw [getGrade_eq_ite]
  rcases le_or_lt tA score with ha | ha
  · simp [ha, not_lt.mpr ha]
  · rcases le_or_lt tB score with hb | hb
    · simp [ha, hb, not_le.mpr ha, not_lt.mpr hb]
    · rcases le_or_lt tC score with hc | hc
      · simp [ha, hb, hc, not_le.mpr ha, not_le.mpr hb, not_lt.mpr hc]
      · simp [ha, hb, hc, not_le.mpr ha, not_le.mpr hb, not_le.mpr hc]

/-- Witness for C2 at score 7/10 against the threshold triple 4/5, 3/5,
2/5 (the produced grade is B and exactly the B-condition holds). -/
theorem getGrade_total_exhaustive_witness :
    (getGrade (7/10) [4/5, 3/5, 2/5] = .A ↔ (4/5 : ℚ) ≤ 7/10) ∧
    (getGrade (7/10) [4/5, 3/5, 2/5] = .B ↔
      (7/10 : ℚ) < 4/5 ∧ (3/5 : ℚ) ≤ 7/10) ∧
    (getGrade (7/10) [4/5, 3/5, 2/5] = .C ↔
      (7/10 : ℚ) < 4/5 ∧ (7/10 : ℚ) < 3/5 ∧ (2/5 : ℚ) ≤ 7/10) ∧
    (getGrade (7/10) [4/5, 3/5, 2/5] = .D ↔
      (7/10 : ℚ) < 4/5 ∧ (7/10 : ℚ) < 3/5 ∧ (7/10 : ℚ) < 2/5) :=
  getGrade_total_exhaustive (7/10) (4/5) (3/5) (2/5)
    (by norm_num) (by norm_num)

/-- C10 (amended): createScorePool rejects exactly the empty list; any
non-empty list of participant scores is accepted without any consistency
check between the members, and the pool is stamped with the first score's
event id and the fixed module constants for hash, problem ids and dimension
ids. -/
theorem createScorePool_accepts_any_nonempty (s : JSONScores)
    (ss : List JSONScores) :
    createScorePool (s :: ss) =
      .ok { event_id := s.event_id,
            prompt_version_hash := PROMPT_VERSION_HASH,
            problem_ids := PROBLEM_IDS,
            dimension_ids := DIMENSION_IDS,
            scores := s :: ss } ∧
    createScorePool ([] : List JSONScores) =
      .error "Cannot create score pool from empty scores array" :=
  ⟨rfl, rfl⟩

/-- Counterexample to C10 as stated: scoresOne and scoresOther have
different problem sets (003400 versus 005000), yet createScorePool accepts
the pair instead of rejecting it; no validation of a shared problem set or
dimension map happens at construction. -/
theorem createScorePool_no_consistency_validation :
    (createScorePool [scoresOne, scoresOther]).isOk = true ∧
    scoresOne.problem_scores.map (fun p => p.problem_id) ≠
      scoresOther.problem_scores.map (fun p => p.problem_id) := by
  constructor
  · rfl
  · decide

/-- The half-up rounding to three decimals is monotone. -/
theorem round3_mono {x y : ℚ} (h : x ≤ y) : round3 x ≤ round3 y := by
  unfold round3 jsRound
  have hf : (⌊x * 1000 + 1/2⌋ : ℤ) ≤ ⌊y * 1000 + 1/2⌋ :=
    Int.floor_le_floor (by linarith)
  exact div_le_div_of_nonneg_right (by exact_mod_cast hf) (by norm_num)

/-- The clamp into the interval 0..1 is monotone. -/
theorem clamp01_mono {x y : ℚ} (h : x ≤ y) : clamp01 x ≤ clamp01 y := by
  unfold clamp01
  exact max_le_max le_rfl (min_le_min le_rfl h)

/-- Whenever the sqrt function maps nonnegative inputs to nonnegative
outputs (as Math.sqrt does), every triple produced by
computeStdDevThresholds is descending: A-threshold, then B-threshold, then
C-threshold. -/
theorem computeStdDevThresholds_chain (sqrt : ℚ → ℚ)
    (hsqrt : ∀ q, 0 ≤ q → 0 ≤ sqrt q) (values : List ℚ) :
    List.Chain' (· ≥ ·) (computeStdDevThresholds sqrt values) := by
  unfold computeStdDevThresholds
  by_cases hlen : values.length = 0
  · rw [if_pos hlen]
    norm_num [List.chain'_cons]
  · rw [if_neg hlen]
    simp only [List.chain'_cons, List.chain'_singleton, and_true, ge_iff_le]
    set mean := values.foldl (· + ·) 0 / (values.length : ℚ) with hmean
    set variance := values.foldl (fun sum v => sum + (v - mean) ^ 2) 0 /
      (values.length : ℚ) with hvariance
    have hvar : 0 ≤ variance := by
      rw [hvariance, foldl_add_map_eq_sum, zero_add]
      refine div_nonneg (List.sum_nonneg ?_) (by positivity)
      intro x hx
      rw [List.mem_map] at hx
      obtain ⟨v, _, rfl⟩ := hx
      positivity
    have hsd : 0 ≤ sqrt variance := hsqrt _ hvar
    exact ⟨round3_mono (clamp01_mono (by linarith)),
      round3_mono (clamp01_mono (by linarith))⟩

/-- C5: for every pool (and any sqrt that, like Math.sqrt, is nonnegative on
nonnegative inputs), every category of the computed standard-deviation
curve — the three totals, every dimension and every problem — carries a
descending threshold triple, so A-threshold is at least B-threshold, which
is at least C-threshold. -/
theorem computeCurve_thresholds_ordered (sqrt : ℚ → ℚ)
    (hsqrt : ∀ q, 0 ≤ q → 0 ≤ sqrt q) (curveId computedAt : String)
    (pool : ScorePool) :
    List.Chain' (· ≥ ·)
      (computeCurve sqrt curveId computedAt pool).totals.total_problem.thresholds ∧
    List.Chain' (· ≥ ·)
      (computeCurve sqrt curveId computedAt pool).totals.total_ability.thresholds ∧
    List.Chain' (· ≥ ·)
      (computeCurve sqrt curveId computedAt pool).totals.final_total.thresholds ∧
    (∀ ac ∈ (computeCurve sqrt curveId computedAt pool).ability_curves,
      List.Chain' (· ≥ ·) ac.thresholds) ∧
    (∀ pc ∈ (computeCurve sqrt curveId computedAt pool).problem_curves,
      List.Chain' (· ≥ ·) pc.thresholds) := by
  refine ⟨computeStdDevThresholds_chain sqrt hsqrt _,
    computeStdDevThresholds_chain sqrt hsqrt _,
    computeStdDevThresholds_chain sqrt hsqrt _, ?_, ?_⟩
  · intro ac hac
    simp only [computeCurve, List.mem_map] at hac
    obtain ⟨did, _, rfl⟩ := hac
    exact computeStdDevThresholds_chain sqrt hsqrt _
  · intro pc hpc
    simp only [computeCurve, List.mem_map] at hpc
    obtain ⟨pid, _, rfl⟩ := hpc
    exact computeStdDevThresholds_chain sqrt hsqrt _

/-- Witness for C5 at the one-participant pool poolOne and the constantly
zero square root. -/
theorem computeCurve_thresholds_ordered_witness :
    List.Chain' (· ≥ ·)
      (computeCurve (fun _ => 0) "curve-w" "2024-01-01T00:00:00Z"
        poolOne).totals.total_problem.thresholds ∧
    List.Chain' (· ≥ ·)
      (computeCurve (fun _ => 0) "curve-w" "2024-01-01T00:00:00Z"
        poolOne).totals.total_ability.thresholds ∧
    List.Chain' (· ≥ ·)
      (computeCurve (fun _ => 0) "curve-w" "2024-01-01T00:00:00Z"
        poolOne).totals.final_total.thresholds ∧
    (∀ ac ∈ (computeCurve (fun _ => 0) "curve-w" "2024-01-01T00:00:00Z"
        poolOne).ability_curves,
      List.Chain' (· ≥ ·) ac.thresholds) ∧
    (∀ pc ∈ (computeCurve (fun _ => 0) "curve-w" "2024-01-01T00:00:00Z"
        poolOne).problem_curves,
      List.Chain' (· ≥ ·) pc.thresholds) :=
  computeCurve_thresholds_ordered (fun _ => 0) (fun _ _ => le_refl 0)
    "curve-w" "2024-01-01T00:00:00Z" poolOne

/-- C9 (amended): applyCurve is deterministic in everything except the
computed_at timestamp it stamps on the result: applying the same curve to
the same scores at two times yields results that agree on every field,
computed_at aside; with equal timestamps the results are identical. -/
theorem applyCurve_deterministic_up_to_timestamp (t1 t2 : String)
    (scores : JSONScores) (curve : Curve) :
    applyCurve t1 scores curve =
      { applyCurve t2 scores curve with computed_at := t1 } :=
  rfl

/-- Counterexample to C9 as stated: two applications of the same curve to
the same scores, made at different wall-clock instants, differ byte for
byte, because the result embeds the application timestamp. -/
theorem applyCurve_not_idempotent_bytewise :
    applyCurve "2024-01-01T00:00:00Z" scoresOne curveOne ≠
      applyCurve "2024-01-01T00:00:01Z" scoresOne curveOne := by
  intro h
  exact absurd (congrArg CurvedLetterGrades.computed_at h) (by decide)

/-- C3 (amended): a scored value with no matching threshold category in the
curve is not an error: applyCurve grades it against the substitute default
thresholds 0.8 / 0.6 / 0.4, both for dimensions absent from the ability
curves and for problems absent from the problem curves. -/
theorem applyCurve_missing_category_fallback (computedAt : String)
    (scores : JSONScores) (curve : Curve) :
    (∀ (i : ℕ) (a : AbilityScore), scores.ability_scores[i]? = some a →
      curve.ability_curves.find?
        (fun c => c.dimension_id == a.dimension_id) = none →
      (applyCurve computedAt scores curve).ability_grades[i]? =
        some ⟨a.dimension_id, getGrade a.score [0.8, 0.6, 0.4]⟩) ∧
    (∀ (i : ℕ) (p : ProblemScore), scores.problem_scores[i]? = some p →
      curve.problem_curves.find?
        (fun c => c.problem_id == p.problem_id) = none →
      (applyCurve computedAt scores curve).problem_grades[i]? =
        some ⟨p.problem_id, getGrade p.objective_score [0.8, 0.6, 0.4]⟩) := by
  constructor
  · intro i a ha hfind
    simp [applyCurve, List.getElem?_map, ha, hfind]
  · intro i p hp hfind
    simp [applyCurve, List.getElem?_map, hp, hfind]

/-- Witness for the amended C3 at scoresNoMatch and curveNoEntries. -/
theorem applyCurve_missing_category_fallback_witness :
    (applyCurve "2024-01-01T00:00:00Z" scoresNoMatch
        curveNoEntries).ability_grades[0]? =
      some ⟨"discovery", getGrade (7/10) [0.8, 0.6, 0.4]⟩ ∧
    (applyCurve "2024-01-01T00:00:00Z" scoresNoMatch
        curveNoEntries).problem_grades[0]? =
      some ⟨"999999", getGrade (1/2) [0.8, 0.6, 0.4]⟩ :=
  ⟨(applyCurve_missing_category_fallback "2024-01-01T00:00:00Z" scoresNoMatch
      curveNoEntries).1 0 ⟨"discovery", 7/10⟩ rfl rfl,
   (applyCurve_missing_category_fallback "2024-01-01T00:00:00Z" scoresNoMatch
      curveNoEntries).2 0 ⟨"999999", 1/2, []⟩ rfl rfl⟩

/-- Counterexample to C3 as stated: scoresNoMatch scores dimension
discovery and problem 999999, neither of which has a threshold category in
curveNoEntries, yet applyCurve returns a full grade object instead of
raising: the dimension is graded B and the problem C, both read off the
substitute boundaries 0.8 / 0.6 / 0.4. -/
theorem applyCurve_missing_category_no_error :
    applyCurve "2024-01-01T00:00:00Z" scoresNoMatch curveNoEntries =
      { source_scores_id := "r3",
        curve_id := "curve-2",
        computed_at := "2024-01-01T00:00:00Z",
        total_grades := ⟨.C, .C, .C⟩,
        ability_grades := [⟨"discovery", .B⟩],
        problem_grades := [⟨"999999", .C⟩] } := by
  simp only [applyCurve, scoresNoMatch, curveNoEntries, tdExample,
    List.map_cons, List.map_nil, List.find?_nil, Option.map_none,
    Option.getD_none]
  norm_num [getGrade_eq_ite]

/-- C4 (amended): checkCompatibility never produces the requires_override
variant on any input; when the problem-id and dimension-id comparisons find
no difference it returns compatible outright, whatever the curve's prompt
version hash — the source performs no prompt-version comparison at all. -/
theorem checkCompatibility_never_requires_override (curve : Curve)
    (scores : JSONScores) (allowLanguageDifference : Bool) :
    (∀ w d, checkCompatibility curve scores allowLanguageDifference ≠
      .requires_override w d) ∧
    (problemIdDifferences curve scores allowLanguageDifference = [] →
      dimensionIdDifferences curve scores = [] →
      checkCompatibility curve scores allowLanguageDifference =
        .compatible) := by
  constructor
  · intro w d
    simp only [checkCompatibility]
    split <;> simp
  · intro h1 h2
    simp [checkCompatibility, h1, h2]

/-- Witness for the amended C4: curveOne and scoresOne have equal problem
and dimension sets while curveOne's prompt version hash ffff999 is not the
hash the reports were generated with, and the check returns compatible. -/
theorem checkCompatibility_never_requires_override_witness :
    checkCompatibility curveOne scoresOne false = .compatible ∧
    curveOne.prompt_version_hash ≠ PROMPT_VERSION_HASH :=
  ⟨(checkCompatibility_never_requires_override curveOne scoresOne false).2
      rfl rfl,
   by decide⟩

/-- Counterexample to C4 as stated: the problem-id and dimension-id sets of
curveOne and scoresOne match and the curve's prompt version hash ffff999
differs from the hash all synthetic reports carry, yet the result is the
compatible variant, not requires_override. -/
theorem checkCompatibility_hash_mismatch_still_compatible :
    checkCompatibility curveOne scoresOne false = .compatible ∧
    curveOne.prompt_version_hash ≠ PROMPT_VERSION_HASH :=
  ⟨by decide, by decide⟩

/-- A left fold that pushes a message for every element failing a predicate
equals the initial accumulator followed by the messages of the failing
elements in order. -/
theorem foldl_filter_push {α β : Type} (p : α → Bool) (f : α → β)
    (l : List α) (acc : List β) :
    l.foldl (fun a x => if p x then a else a ++ [f x]) acc =
      acc ++ (l.filter (fun x => !p x)).map f := by
  induction l generalizing acc with
  | nil => simp
  | cons x xs ih =>
    rw [List.foldl_cons]
    cases hp : p x
    · rw [if_neg (by simp [hp]), ih]
      simp [List.filter_cons, hp, List.append_assoc]
    · rw [if_pos (by simp [hp]), ih]
      simp [List.filter_cons, hp]

/-- Membership in the fold that builds a JavaScript Set. -/
theorem mem_foldl_insert (l acc : List String) (a : String) :
    (a ∈ l.foldl (fun acc x => if x ∈ acc then acc else acc ++ [x]) acc) ↔
      a ∈ acc ∨ a ∈ l := by
  induction l generalizing acc with
  | nil => simp
  | cons x xs ih =>
    rw [List.foldl_cons, ih]
    by_cases hx : x ∈ acc
    · rw [if_pos hx]
      have hax : a = x → a ∈ acc := fun h => h ▸ hx
      simp only [List.mem_cons]
      tauto
    · rw [if_neg hx]
      simp only [List.mem_append, List.mem_cons, List.mem_singleton]
      tauto

/-- Deduplicating into a JavaScript Set preserves membership. -/
theorem mem_jsSetList (l : List String) (a : String) :
    a ∈ jsSetList l ↔ a ∈ l := by
  simpa using mem_foldl_insert l [] a

/-- Boolean list containment agrees with membership. -/
theorem contains_eq_true_iff (l : List String) (a : String) :
    l.contains a = true ↔ a ∈ l :=
  List.elem_iff

/-- A difference accumulator is empty exactly when every element has a
match. -/
theorem diffs_empty_iff (p : String → Bool) (msg : String → String)
    (l : List String) :
    (l.foldl (fun acc x => if p x then acc else acc ++ [msg x]) [] = []) ↔
      ∀ x ∈ l, p x = true := by
  rw [foldl_filter_push]
  simp [List.filter_eq_nil_iff]

/-- C6 (reason shape): whenever any problem or dimension mismatch exists,
checkCompatibility returns incompatible carrying exactly one reason string
per mismatched item: first the problems only the curve has, then the
problems only the scores have, then the dimensions only the curve has, then
the dimensions only the scores have — the two directions are reported
separately, never merged. -/
theorem checkCompatibility_one_reason_per_mismatch (curve : Curve)
    (scores : JSONScores)
    (curveOnlyP scoresOnlyP curveOnlyD scoresOnlyD : List String)
    (h1 : curveOnlyP = (jsSetList curve.problem_ids).filter (fun pid =>
      !(jsSetList (scores.problem_scores.map
        (fun p => p.problem_id))).contains pid))
    (h2 : scoresOnlyP = (jsSetList (scores.problem_scores.map
        (fun p => p.problem_id))).filter (fun pid =>
      !(jsSetList curve.problem_ids).contains pid))
    (h3 : curveOnlyD = (jsSetList curve.dimension_ids).filter (fun did =>
      !(jsSetList (scores.ability_scores.map
        (fun a => a.dimension_id))).contains did))
    (h4 : scoresOnlyD = (jsSetList (scores.ability_scores.map
        (fun a => a.dimension_id))).filter (fun did =>
      !(jsSetList curve.dimension_ids).contains did))
    (h : curveOnlyP ++ scoresOnlyP ++ curveOnlyD ++ scoresOnlyD ≠ []) :
    checkCompatibility curve scores false =
      .incompatible
        (curveOnlyP.map
          (fun pid => "Curve has " ++ pid ++ " but scores missing it") ++
         scoresOnlyP.map
          (fun pid => "Scores has " ++ pid ++ " but curve missing it") ++
         curveOnlyD.map
          (fun did => "Curve has " ++ did ++ " but scores missing it") ++
         scoresOnlyD.map
          (fun did => "Scores has " ++ did ++ " but curve missing it")) := by
  subst h1 h2 h3 h4
  have hpd : problemIdDifferences curve scores false =
      ((jsSetList curve.problem_ids).filter (fun pid =>
        !(jsSetList (scores.problem_scores.map
          (fun p => p.problem_id))).contains pid)).map
        (fun pid => "Curve has " ++ pid ++ " but scores missing it") ++
      ((jsSetList (scores.problem_scores.map
          (fun p => p.problem_id))).filter (fun pid =>
        !(jsSetList curve.problem_ids).contains pid)).map
        (fun pid => "Scores has " ++ pid ++ " but curve missing it") := by
    simp only [problemIdDifferences, Bool.false_eq_true, if_false]
    rw [foldl_filter_push, foldl_filter_push]
    simp
  have hdd : dimensionIdDifferences curve scores =
      ((jsSetList curve.dimension_ids).filter (fun did =>
        !(jsSetList (scores.ability_scores.map
          (fun a => a.dimension_id))).contains did)).map
        (fun did => "Curve has " ++ did ++ " but scores missing it") ++
      ((jsSetList (scores.ability_scores.map
          (fun a => a.dimension_id))).filter (fun did =>
        !(jsSetList curve.dimension_ids).contains did)).map
        (fun did => "Scores has " ++ did ++ " but curve missing it") := by
    simp only [dimensionIdDifferences]
    rw [foldl_filter_push, foldl_filter_push]
    simp
  have hlen0 := List.length_pos.mpr h
  simp only [List.length_append] at hlen0
  have hlen : (problemIdDifferences curve scores false ++
      dimensionIdDifferences curve scores).length > 0 := by
    rw [hpd, hdd]
    simp only [List.length_append, List.length_map]
    omega
  simp only [checkCompatibility]
  rw [if_pos hlen, hpd, hdd]
  simp [List.append_assoc]

/-- Witness for C6: curveTwoProblems requires problems 100000 and 100010
while scoresTwoProblems has 100000 and 100020, so the result is
incompatible with exactly one reason for 100010 (curve side) and one for
100020 (scores side). -/
theorem checkCompatibility_one_reason_per_mismatch_witness :
    checkCompatibility curveTwoProblems scoresTwoProblems false =
      .incompatible
        ["Curve has 100010 but scores missing it",
         "Scores has 100020 but curve missing it"] := by
  have h := checkCompatibility_one_reason_per_mismatch curveTwoProblems
    scoresTwoProblems ["100010"] ["100020"] [] []
    (by decide) (by decide) (by decide) (by decide) (by decide)
  exact h

/-- C7: with the language-variant option set, the problem-id comparison of
checkCompatibility strips the trailing language digit on both sides — no
mismatch reason is produced exactly when every curve problem has a score
problem with the same base id and vice versa, so ids differing only in
their last digit are treated as equivalent; without the option the ids are
compared verbatim against the other side's set. -/
theorem checkCompatibility_language_variant (curve : Curve)
    (scores : JSONScores) :
    (problemIdDifferences curve scores true = [] ↔
      ((∀ pid ∈ curve.problem_ids, ∃ sp ∈ scores.problem_scores,
          extractBaseProblemId sp.problem_id = extractBaseProblemId pid) ∧
       (∀ sp ∈ scores.problem_scores, ∃ pid ∈ curve.problem_ids,
          extractBaseProblemId pid =
            extractBaseProblemId sp.problem_id))) ∧
    (problemIdDifferences curve scores false = [] ↔
      ((∀ pid ∈ curve.problem_ids,
          pid ∈ scores.problem_scores.map (fun p => p.problem_id)) ∧
       (∀ sp ∈ scores.problem_scores,
          sp.problem_id ∈ curve.problem_ids))) := by
  constructor
  · have e : problemIdDifferences curve scores true =
        (jsSetList curve.problem_ids).foldl (fun acc pid =>
          if (jsSetList (scores.problem_scores.map
              (fun p => p.problem_id))).any (fun spid =>
            extractBaseProblemId spid == extractBaseProblemId pid) then acc
          else acc ++ ["Curve has " ++ pid ++ " but scores missing it"]) [] ++
        (jsSetList (scores.problem_scores.map
            (fun p => p.problem_id))).foldl (fun acc pid =>
          if (jsSetList curve.problem_ids).any (fun cpid =>
            extractBaseProblemId cpid == extractBaseProblemId pid) then acc
          else acc ++ ["Scores has " ++ pid ++ " but curve missing it"])
          [] := by
      simp only [problemIdDifferences, eq_self_iff_true, if_true]
    rw [e, List.append_eq_nil, diffs_empty_iff, diffs_empty_iff]
    simp only [List.any_eq_true, beq_iff_eq, mem_jsSetList, List.mem_map]
    constructor
    · rintro ⟨hc, hs⟩
      constructor
      · intro pid hpid
        obtain ⟨spid, ⟨sp, hsp, rfl⟩, hbase⟩ := hc pid hpid
        exact ⟨sp, hsp, hbase⟩
      · intro sp hsp
        obtain ⟨cpid, hcpid, hbase⟩ :=
          hs sp.problem_id ⟨sp, hsp, rfl⟩
        exact ⟨cpid, hcpid, hbase⟩
    · rintro ⟨hc, hs⟩
      constructor
      · intro pid hpid
        obtain ⟨sp, hsp, hbase⟩ := hc pid hpid
        exact ⟨sp.problem_id, ⟨sp, hsp, rfl⟩, hbase⟩
      · rintro spid ⟨sp, hsp, rfl⟩
        exact hs sp hsp
  · have e : problemIdDifferences curve scores false =
        (jsSetList curve.problem_ids).foldl (fun acc pid =>
          if (jsSetList (scores.problem_scores.map
              (fun p => p.problem_id))).contains pid then acc
          else acc ++ ["Curve has " ++ pid ++ " but scores missing it"]) [] ++
        (jsSetList (scores.problem_scores.map
            (fun p => p.problem_id))).foldl (fun acc pid =>
          if (jsSetList curve.problem_ids).contains pid then acc
          else acc ++ ["Scores has " ++ pid ++ " but curve missing it"])
          [] := by
      simp only [problemIdDifferences, Bool.false_eq_true, if_false]
    rw [e, List.append_eq_nil, diffs_empty_iff, diffs_empty_iff]
    simp only [contains_eq_true_iff, mem_jsSetList, List.mem_map]
    constructor
    · rintro ⟨hc, hs⟩
      refine ⟨hc, fun sp hsp => hs sp.problem_id ⟨sp, hsp, rfl⟩⟩
    · rintro ⟨hc, hs⟩
      refine ⟨hc, ?_⟩
      rintro spid ⟨sp, hsp, rfl⟩
      exact hs sp hsp

/-- Witness for C7: the curve over the English variant 003400 checked
against scores over the Chinese variant 003401: with the option set there
is no mismatch reason, without it the verbatim comparison reports
mismatches. -/
theorem checkCompatibility_language_variant_witness :
    problemIdDifferences curveLangEn scoresLangZh true = [] ∧
    problemIdDifferences curveLangEn scoresLangZh false ≠ [] := by
  constructor
  · exact (checkCompatibility_language_variant curveLangEn scoresLangZh).1.mpr
      (by decide)
  · intro hnil
    have h := (checkCompatibility_language_variant curveLangEn
      scoresLangZh).2.mp hnil
    exact absurd h (by decide)

/-- C8: evaluation at the failing input.  dimScoreSkewed scores discovery
0.85 on exactly the four problems the dependency configuration lists for it
and 0 on the two ling-bing problems it does not list.  The report
generator's aggregation averages discovery over all six problems and yields
0.57, while the rule of the specification and of the repository's own
domain documentation — averaging only over the contributing problems —
yields 0.85. -/
theorem abilityScore_ignores_dimension_map :
    generateReportAbilityScore dimScoreSkewed "discovery" = 57/100 ∧
    specAbilityScore generateDimensionDependencies dimScoreSkewed
      "discovery" = 17/20 ∧
    (57/100 : ℚ) ≠ 17/20 := by
  refine ⟨?_, ?_, by norm_num⟩
  · simp only [generateReportAbilityScore, dimScoreSkewed, PROBLEM_IDS,
      List.map_cons, List.map_nil, List.foldl_cons, List.foldl_nil,
      List.length_cons, List.length_nil, String.reduceEq, String.reduceBEq,
      Bool.or_eq_true, beq_iff_eq, if_true, if_false]
    norm_num [round2, jsRound]
  · simp [specAbilityScore, generateDimensionDependencies, dimScoreSkewed]
    norm_num

end ScorePipeline
